import Mathlib

/-!
Verification of the HiyaDrive booking engine.

Shallow embedding of `src/hiya_drive/models/state.py`,
`src/hiya_drive/core/orchestrator.py` and the intent-completion /
availability-negotiation loops of
`src/hiya_drive/core/interactive_voice_orchestrator.py`.

Machine integers are modelled as `Nat`, Python `None`-able fields as
`Option`, restaurant ratings (Python floats carrying one fractional
decimal digit, used only as ordered data, never in arithmetic) as `Nat`
counts of tenths of a star (4.2 becomes 42), which preserves their
order exactly.  Calls into external collaborators (the
LLM client, Twilio, the microphone) are modelled as explicit oracle
data threaded through an `Env` structure or given as function
parameters, exactly at the call sites where the source awaits them.
-/

namespace HiyaDrive

/-- `SessionStatus` enum of `models/state.py`. -/
inductive SessionStatus where
  | active
  | completed
  | failed
  | timeout
  | cancelled
deriving DecidableEq, Repr

/-- `Restaurant` dataclass of `models/state.py`.  `rating` is a Python
float that is only stored and compared; the source ratings all have one
fractional digit, so it is embedded order-faithfully in tenths of a
star (the source's 4.2 is 42 here). -/
structure Restaurant where
  name : String
  phone : String
  address : String
  rating : Nat
  opening_hours : Option String := none
  url : Option String := none
deriving DecidableEq, Repr

/-- `DrivingBookingState` dataclass of `models/state.py`.  The fields of
the driving-context block (`current_speed_kmh`, `road_complexity`,
`safe_to_speak`, `last_prompt_time`), `driver_location`,
`conversation_history`, `metadata` and `start_time` are never read or
written by the orchestration logic in scope, so they are omitted from
the embedding; all fields the engine touches are present.  `messages`
entries are the (role, content) pairs of `add_message`. -/
structure DrivingBookingState where
  session_id : String
  driver_id : String
  status : SessionStatus := .active
  party_size : Option Nat := none
  requested_date : Option String := none
  requested_time : Option String := none
  cuisine_type : Option String := none
  location : Option String := none
  driver_calendar_free : Bool := false
  restaurant_candidates : List Restaurant := []
  selected_restaurant : Option Restaurant := none
  confirmation_number : Option String := none
  booking_confirmed : Bool := false
  call_opening_script : Option String := none
  errors : List String := []
  retry_count : Nat := 0
  max_retries : Nat := 2
  last_error : Option String := none
  turn_count : Nat := 0
  last_utterance : Option String := none
  messages : List (String × String) := []
  twilio_call_sid : Option String := none
  call_connected : Bool := false
  call_duration_seconds : Nat := 0
deriving DecidableEq, Repr

abbrev State := DrivingBookingState

/-- `DrivingBookingState.add_error`. -/
def add_error (s : State) (e : String) : State :=
  { s with errors := s.errors ++ [e], last_error := some e }

/-- `DrivingBookingState.add_message`. -/
def add_message (s : State) (role content : String) : State :=
  { s with messages := s.messages ++ [(role, content)] }

/-- `DrivingBookingState.has_errors`. -/
def has_errors (s : State) : Bool :=
  s.errors.length > 0

/-- `DrivingBookingState.can_retry`. -/
def can_retry (s : State) : Bool :=
  s.retry_count < s.max_retries

/-- `DrivingBookingState.increment_retry`. -/
def increment_retry (s : State) : State :=
  { s with retry_count := s.retry_count + 1 }

/-- `DrivingBookingState.increment_turn`. -/
def increment_turn (s : State) : State :=
  { s with turn_count := s.turn_count + 1 }

/-- The configuration flags of `config/settings.py` consulted by the
orchestrator. -/
structure Settings where
  demo_mode : Bool := true
  use_mock_calendar : Bool := false
  use_mock_places : Bool := false
  use_mock_twilio : Bool := false
  max_conversation_turns : Nat := 10
deriving DecidableEq, Repr

/-- Python truthiness of an optional string (`None` and `""` falsy). -/
def str_truthy : Option String → Bool
  | none => false
  | some t => t ≠ ""

/-- Python truthiness of an optional int (`None` and `0` falsy). -/
def nat_truthy : Option Nat → Bool
  | none => false
  | some n => n ≠ 0

/-- Python `str(x)` of an optional int as used in f-strings
(`None` prints as `"None"`). -/
def opt_nat_str : Option Nat → String
  | none => "None"
  | some n => toString n

/-- Python `str(x)` of an optional string in f-strings. -/
def opt_str : Option String → String
  | none => "None"
  | some t => t

-- =====================================================================
-- Mini string machinery for the demo-mode regexes of `parse_intent`
-- (ASCII inputs; the source patterns have no backtracking beyond the
-- bounded `\d{1,2}` quantifier, so direct scanning is exact).
-- =====================================================================

/-- Python `\s` character class (ASCII). -/
def py_space (c : Char) : Bool :=
  c = ' ' ∨ c = '\t' ∨ c = '\n' ∨ c = '\x0d' ∨ c = '\x0b' ∨ c = '\x0c'

/-- Python `\w` character class (ASCII). -/
def py_word (c : Char) : Bool :=
  c.isAlphanum ∨ c = '_'

/-- The numeric value of a digit run, as Python `int(...)`. -/
def digits_to_nat (ds : List Char) : Nat :=
  ds.foldl (fun a c => a * 10 + (c.toNat - 48)) 0

/-- Substring containment, Python `needle in haystack`. -/
def is_substr (needle : List Char) : List Char → Bool
  | [] => needle.isPrefixOf []
  | c :: cs => needle.isPrefixOf (c :: cs) || is_substr needle (c :: cs).tail

/-- Match of `(\d+)\s+(?:people|person|for)` anchored at the head. -/
def match_party_at (cs : List Char) : Option Nat :=
  let ds := cs.takeWhile Char.isDigit
  if ds.isEmpty then none else
  let r1 := cs.drop ds.length
  let sp := r1.takeWhile py_space
  if sp.isEmpty then none else
  let r2 := r1.drop sp.length
  if ("people".toList.isPrefixOf r2 || "person".toList.isPrefixOf r2
      || "for".toList.isPrefixOf r2) then
    some (digits_to_nat ds)
  else none

/-- Leftmost search of `(\d+)\s+(?:people|person|for)`
(`re.search` in `parse_intent`, demo branch). -/
def search_party : List Char → Option Nat
  | [] => none
  | c :: cs =>
    match match_party_at (c :: cs) with
    | some n => some n
    | none => search_party cs

/-- Match of `near\s+(\w+)` anchored at the head. -/
def match_near_at (cs : List Char) : Option (List Char) :=
  if "near".toList.isPrefixOf cs then
    let r1 := cs.drop 4
    let sp := r1.takeWhile py_space
    if sp.isEmpty then none else
    let r2 := r1.drop sp.length
    let w := r2.takeWhile py_word
    if w.isEmpty then none else some w
  else none

/-- Leftmost search of `near\s+(\w+)`. -/
def search_near : List Char → Option (List Char)
  | [] => none
  | c :: cs =>
    match match_near_at (c :: cs) with
    | some w => some w
    | none => search_near cs

/-- The alternation `(?:pm|am|:00)` anchored at the head. -/
def time_alt (r : List Char) : Bool :=
  "pm".toList.isPrefixOf r || "am".toList.isPrefixOf r
    || ":00".toList.isPrefixOf r

/-- One branch of `(\d{1,2})\s*(?:pm|am|:00)` taking `k` digits. -/
def match_time_with (k : Nat) (cs : List Char) : Option Nat :=
  let ds := cs.take k
  let r1 := cs.drop k
  let sp := r1.takeWhile py_space
  let r2 := r1.drop sp.length
  if time_alt r2 then some (digits_to_nat ds) else none

/-- Match of `(\d{1,2})\s*(?:pm|am|:00)` anchored at the head: the
greedy quantifier tries two digits, then backtracks to one. -/
def match_time_at (cs : List Char) : Option Nat :=
  let ds := cs.takeWhile Char.isDigit
  if ds.length ≥ 2 then
    match match_time_with 2 cs with
    | some n => some n
    | none => match_time_with 1 cs
  else if ds.length = 1 then match_time_with 1 cs
  else none

/-- Leftmost search of `(\d{1,2})\s*(?:pm|am|:00)`. -/
def search_time : List Char → Option Nat
  | [] => none
  | c :: cs =>
    match match_time_at (c :: cs) with
    | some n => some n
    | none => search_time cs

/-- Python `str.capitalize()`. -/
def py_capitalize (t : String) : String :=
  match t.toList with
  | [] => ""
  | c :: cs => String.mk (c.toUpper :: cs.map Char.toLower)

/-- Python `f"\x7bhour:02d\x7d"` for the demo time format. -/
def pad2 (n : Nat) : String :=
  if n < 10 then "0" ++ toString n else toString n

/-- Python `str.strip()`: drop leading and trailing whitespace. -/
def py_strip (t : String) : String :=
  String.mk (((t.toList.dropWhile py_space).reverse.dropWhile
    py_space).reverse)

-- =====================================================================
-- Step handlers (`core/orchestrator.py`).
-- =====================================================================

/-- The five optional fields an intent extraction can return; a missing
JSON key and a JSON `null` both read back as `None` through `.get`, so
both are `none` here. -/
structure Extracted where
  party_size : Option Nat := none
  cuisine_type : Option String := none
  location : Option String := none
  date : Option String := none
  time : Option String := none
deriving DecidableEq, Repr

/-- External-collaborator oracle: the outcome of each call the engine
awaits on a third-party client.  `intent_result` is the parsed JSON of
the real-mode LLM intent call (`.error` = the call or its JSON handling
raised); `prepare_response` is the raw text of the real-mode
script-generation call; `call_sid_hex` is the `uuid.uuid4().hex[:8]`
fragment of the mocked Twilio sid. -/
structure Env where
  intent_result : Except String Extracted := .ok {}
  prepare_response : Except String String := .ok ""
  call_sid_hex : String := "0a1b2c3d"
deriving Repr

/-- Party-size extraction of the demo branch of `parse_intent`. -/
def demo_party (utt : List Char) (s : State) : State :=
  match search_party utt with
  | some n => { s with party_size := some n }
  | none => { s with party_size := some 2 }

/-- Cuisine extraction of the demo branch of `parse_intent`. -/
def demo_cuisine (utt : List Char) (s : State) : State :=
  match ["italian", "sushi", "french", "mexican", "thai",
         "indian"].find? (fun c => is_substr c.toList utt) with
  | some c => { s with cuisine_type := some (py_capitalize c) }
  | none =>
    if str_truthy s.cuisine_type then s
    else { s with cuisine_type := some "Italian" }

/-- Location extraction of the demo branch of `parse_intent`. -/
def demo_location (utt : List Char) (s : State) : State :=
  if is_substr "near".toList utt then
    match search_near utt with
    | some w => { s with location := some (String.mk w) }
    | none => { s with location := some "Boston" }
  else { s with location := some "Boston" }

/-- Date extraction of the demo branch of `parse_intent`. -/
def demo_date (utt : List Char) (s : State) : State :=
  if is_substr "friday".toList utt then
    { s with requested_date := some "next Friday" }
  else if is_substr "tomorrow".toList utt then
    { s with requested_date := some "tomorrow" }
  else { s with requested_date := some "2024-11-22" }

/-- Time extraction of the demo branch of `parse_intent`. -/
def demo_time (utt : List Char) (s : State) : State :=
  match search_time utt with
  | some h =>
    let h := if is_substr "pm".toList utt ∧ h < 12 then h + 12 else h
    { s with requested_time := some (pad2 h ++ ":00") }
  | none => { s with requested_time := some "19:00" }

/-- Demo-mode branch of `BookingOrchestrator.parse_intent`
(orchestrator.py lines 89-143): keyword/regex extraction with
defaults, applied field after field in source order on the lowercased
`state.last_utterance or ""`. -/
def parse_intent_demo (s : State) : State :=
  let utt := match s.last_utterance with
    | none => []
    | some u => u.toList.map Char.toLower
  demo_time utt (demo_date utt (demo_location utt
    (demo_cuisine utt (demo_party utt s))))

/-- `BookingOrchestrator.parse_intent`.  The real-mode branch awaits the
LLM client; its parsed outcome is supplied by `env` (an exception there
is caught and recorded, lines 188-190). -/
def parse_intent (cfg : Settings) (env : Env) (s : State) : State :=
  if cfg.demo_mode then parse_intent_demo s
  else
    match env.intent_result with
    | .ok it =>
      -- the five `.get` assignments, then the
      -- `if not state.requested_time:` default of line 177
      if str_truthy it.time then
        { s with party_size := it.party_size,
                 cuisine_type := it.cuisine_type, location := it.location,
                 requested_date := it.date, requested_time := it.time }
      else
        { s with party_size := it.party_size,
                 cuisine_type := it.cuisine_type, location := it.location,
                 requested_date := it.date,
                 requested_time := some "19:00" }
    | .error msg => add_error s ("Intent parsing failed: " ++ msg)

/-- `BookingOrchestrator.check_calendar`: both the mocked and the
placeholder real branch set availability to `True`. -/
def check_calendar (cfg : Settings) (s : State) : State :=
  if cfg.use_mock_calendar || cfg.demo_mode then
    { s with driver_calendar_free := true }
  else
    { s with driver_calendar_free := true }

/-- First mock restaurant of `search_restaurants` (4.2 stars). -/
def olive_garden : Restaurant :=
  { name := "Olive Garden", phone := "+1-555-0100",
    address := "123 Main St, Boston, MA", rating := 42 }

/-- Second mock restaurant (4.5 stars, the highest-rated). -/
def restaurant2 : Restaurant :=
  { name := "Restaurant 2", phone := "+1-555-0200",
    address := "456 Park Ave, Boston, MA", rating := 45 }

/-- Third mock restaurant (4.1 stars). -/
def restaurant3 : Restaurant :=
  { name := "Restaurant 3", phone := "+1-555-0300",
    address := "789 Broadway, Boston, MA", rating := 41 }

/-- The three mock restaurants of `search_restaurants` (ratings 4.2,
4.5 and 4.1 stars, stored in tenths, in source order). -/
def mock_restaurants : List Restaurant :=
  [olive_garden, restaurant2, restaurant3]

/-- `BookingOrchestrator.search_restaurants`: mock list in mock/demo
mode, the placeholder real branch returns the empty list. -/
def search_restaurants (cfg : Settings) (s : State) : State :=
  if cfg.use_mock_places || cfg.demo_mode then
    { s with restaurant_candidates := mock_restaurants }
  else
    { s with restaurant_candidates := [] }

/-- `BookingOrchestrator.select_restaurant`: on an empty candidate list
records an error string; otherwise auto-selects the FIRST candidate
(line 257, "Auto-select first restaurant for MVP"). -/
def select_restaurant (s : State) : State :=
  match s.restaurant_candidates with
  | [] => add_error s "No restaurants found"
  | r :: _ => { s with selected_restaurant := some r }

/-- The demo/fallback opening script f-string of `prepare_call`. -/
def demo_script (s : State) : String :=
  "Hello, I\u0027d like to make a reservation for "
    ++ opt_nat_str s.party_size ++ " on " ++ opt_str s.requested_date
    ++ " at " ++ opt_str s.requested_time ++ "."

/-- The `[SCRIPT]...[END]` extraction of `prepare_call` (lazy group:
text between the first `[SCRIPT]` and the first following `[END]`). -/
def extract_script (raw : String) : String :=
  match raw.splitOn "[SCRIPT]" with
  | _ :: rest0 :: rest =>
    let after := String.intercalate "[SCRIPT]" (rest0 :: rest)
    match after.splitOn "[END]" with
    | grp :: _ :: _ => py_strip grp
    | _ => py_strip raw
  | _ => py_strip raw

/-- `BookingOrchestrator.prepare_call`: guard on a missing selection,
demo script, or real-mode LLM call whose raw reply comes from `env`
(an exception falls back to the demo script, line 312). -/
def prepare_call (cfg : Settings) (env : Env) (s : State) : State :=
  if s.selected_restaurant = none then
    add_error s "No restaurant selected"
  else if cfg.demo_mode then
    { s with call_opening_script := some (demo_script s) }
  else
    match env.prepare_response with
    | .ok raw => { s with call_opening_script := some (extract_script raw) }
    | .error _ => { s with call_opening_script := some (demo_script s) }

/-- `BookingOrchestrator.make_call`.  The logger call on lines 318-320
evaluates `state.selected_restaurant.name` BEFORE the `None` guard on
line 322, so on a state without a selection the handler raises
`AttributeError` instead of returning; we model the raise as `.error`.
-/
def make_call (cfg : Settings) (env : Env) (s : State) :
    Except String State :=
  if s.selected_restaurant = none then
    .error "AttributeError: 'NoneType' object has no attribute 'name'"
  else if cfg.use_mock_twilio || cfg.demo_mode then
    .ok { s with
      twilio_call_sid := some ("mock_call_" ++ env.call_sid_hex)
      call_connected := true }
  else
    .ok { s with call_connected := true }

/-- `BookingOrchestrator.converse`: guard on a disconnected call, the
demo-mode scripted exchange that confirms the booking, the real branch
that leaves it unconfirmed, then `increment_turn` (skipped by the early
return). -/
def converse (cfg : Settings) (s : State) : State :=
  if ¬ s.call_connected then add_error s "Call not connected"
  else
    let opening := match s.call_opening_script with
      | some t => if t = "" then "Hello" else t
      | none => "Hello"
    let s := add_message s "assistant" opening
    let s :=
      if cfg.demo_mode then
        let s := add_message s "restaurant" "Hello! How many people?"
        let s := add_message s "assistant"
          (opt_nat_str s.party_size ++ " people please.")
        let s := add_message s "restaurant"
          "Sure! What name for the reservation?"
        let s := add_message s "assistant" "Alex"
        let s := add_message s "restaurant"
          "Perfect! Your confirmation number is 4892."
        { s with confirmation_number := some "4892",
                 booking_confirmed := true }
      else
        { s with booking_confirmed := false }
    increment_turn s

/-- `BookingOrchestrator.confirm_booking`: fails an incomplete booking,
otherwise marks the session completed. -/
def confirm_booking (s : State) : State :=
  if ¬ s.booking_confirmed ∨ s.selected_restaurant = none then
    let s := add_error s "Cannot confirm incomplete booking"
    { s with status := .failed }
  else
    { s with status := .completed }

/-- `BookingOrchestrator.handle_error`: retry while the budget allows,
otherwise mark the session failed (no error entry is appended here). -/
def handle_error (s : State) : State :=
  if can_retry s then increment_retry s
  else { s with status := .failed }

-- =====================================================================
-- Routers and the workflow graph (`_build_workflow`).
-- =====================================================================

/-- Labels returned by `route_conversation`. -/
inductive ConvRoute where
  | booking_confirmed
  | need_alternatives
  | error
  | timeout
deriving DecidableEq, Repr

/-- Labels returned by `route_error_recovery`. -/
inductive ErrRoute where
  | retry
  | fallback
  | abandon
deriving DecidableEq, Repr

/-- `BookingOrchestrator.route_conversation`. -/
def route_conversation (cfg : Settings) (s : State) : ConvRoute :=
  if s.booking_confirmed then .booking_confirmed
  else if has_errors s then .error
  else if s.turn_count ≥ cfg.max_conversation_turns then .timeout
  else .need_alternatives

/-- `BookingOrchestrator.route_error_recovery`. -/
def route_error_recovery (s : State) : ErrRoute :=
  if can_retry s then .retry
  else if s.booking_confirmed then .fallback
  else .abandon

/-- The named nodes of the LangGraph workflow. -/
inductive Node where
  | parse_intent
  | check_calendar
  | search_restaurants
  | select_restaurant
  | prepare_call
  | make_call
  | converse
  | confirm_booking
  | handle_error
deriving DecidableEq, Repr

/-- Execution of one node's handler.  Only `make_call` can raise (see
`make_call`); every other handler returns normally. -/
def execNode (cfg : Settings) (env : Env) : Node → State → Except String State
  | .parse_intent, s => .ok (parse_intent cfg env s)
  | .check_calendar, s => .ok (check_calendar cfg s)
  | .search_restaurants, s => .ok (search_restaurants cfg s)
  | .select_restaurant, s => .ok (select_restaurant s)
  | .prepare_call, s => .ok (prepare_call cfg env s)
  | .make_call, s => make_call cfg env s
  | .converse, s => .ok (converse cfg s)
  | .confirm_booking, s => .ok (confirm_booking s)
  | .handle_error, s => .ok (handle_error s)

/-- The edges of `_build_workflow`: static edges along the happy path,
the conditional edges after `converse` and `handle_error`, and the
terminal edges to `END` (`none`). -/
def routeFrom (cfg : Settings) : Node → State → Option Node
  | .parse_intent, _ => some .check_calendar
  | .check_calendar, _ => some .search_restaurants
  | .search_restaurants, _ => some .select_restaurant
  | .select_restaurant, _ => some .prepare_call
  | .prepare_call, _ => some .make_call
  | .make_call, _ => some .converse
  | .converse, s =>
    match route_conversation cfg s with
    | .booking_confirmed => some .confirm_booking
    | .need_alternatives => some .search_restaurants
    | .error => some .handle_error
    | .timeout => some .handle_error
  | .confirm_booking, _ => none
  | .handle_error, s =>
    match route_error_recovery s with
    | .retry => some .make_call
    | .fallback => some .confirm_booking
    | .abandon => none

/-- Outcome of a graph execution: normal termination at `END`, an
exception escaping a node (only `make_call` can), or the recursion
limit of the graph library (modelled as fuel). -/
inductive RunResult where
  | finished (s : State)
  | raised (s : State) (msg : String)
  | outOfFuel (n : Node) (s : State)
deriving DecidableEq, Repr

/-- Graph walk from a node: records the (node, entry-state) observation
points in order and the final outcome. -/
def runTrace (cfg : Settings) (env : Env) :
    Nat → Node → State → List (Node × State) × RunResult
  | 0, n, s => ([], .outOfFuel n s)
  | fuel + 1, n, s =>
    match execNode cfg env n s with
    | .error msg => ([(n, s)], .raised s msg)
    | .ok s' =>
      match routeFrom cfg n s' with
      | none => ([(n, s)], .finished s')
      | some n' =>
        let r := runTrace cfg env fuel n' s'
        ((n, s) :: r.1, r.2)

/-- The fresh state built by `run_booking_session` (dataclass defaults;
`session_id` is an external uuid, passed in here). -/
def init_state (sid driver_id : String) (utt : String) : State :=
  { session_id := sid, driver_id := driver_id,
    last_utterance := some utt }

/-- `BookingOrchestrator.run_booking_session`: runs the workflow and, if
an exception escapes (a node raise or the graph recursion limit),
records it on the threaded state and marks the session failed. -/
def run_booking_session (cfg : Settings) (env : Env) (fuel : Nat)
    (sid driver_id utt : String) : State :=
  match (runTrace cfg env fuel .parse_intent (init_state sid driver_id utt)).2 with
  | .finished s => s
  | .raised s msg =>
    { add_error s ("Workflow error: " ++ msg) with status := .failed }
  | .outOfFuel _ s =>
    { add_error s "Workflow error: GraphRecursionError" with status := .failed }

-- =====================================================================
-- The loops of `core/interactive_voice_orchestrator.py`.
-- =====================================================================

/-- `InteractiveVoiceOrchestrator._has_all_required_details`: Python
`all([...])` over the five fields, i.e. truthiness of each. -/
def has_all_required_details (s : State) : Bool :=
  nat_truthy s.party_size && str_truthy s.cuisine_type
    && str_truthy s.location && str_truthy s.requested_date
    && str_truthy s.requested_time

/-- `InteractiveVoiceOrchestrator._update_state_from_extracted`: each
field is overwritten only when `extracted.get(key)` is truthy.  The
source performs the five guarded assignments in sequence; they touch
pairwise distinct fields, so they are recorded here as one parallel
record update. -/
def update_state_from_extracted (s : State) (e : Extracted) : State :=
  { s with
    party_size :=
      if nat_truthy e.party_size then e.party_size else s.party_size
    cuisine_type :=
      if str_truthy e.cuisine_type then e.cuisine_type else s.cuisine_type
    location :=
      if str_truthy e.location then e.location else s.location
    requested_date :=
      if str_truthy e.date then e.date else s.requested_date
    requested_time :=
      if str_truthy e.time then e.time else s.requested_time }

/-- Intent-completion loop (run_interactive_voice_booking lines 77-104):
listen, skip blank utterances, otherwise merge the extraction
collaborator's partial update; repeat until all five fields are
present.  Each list element is one (transcribed utterance, extraction
result) observation; `none` means the supplied observations ran out
before the predicate was satisfied (the source would keep listening).
Returns the final state and the number of loop iterations executed. -/
def intent_loop_run : List (String × Extracted) → State → Option (State × Nat)
  | inputs, s =>
    if has_all_required_details s then some (s, 0)
    else
      match inputs with
      | [] => none
      | (u, e) :: rest =>
        if py_strip u = "" then
          (intent_loop_run rest s).map (fun p => (p.1, p.2 + 1))
        else
          (intent_loop_run rest (update_state_from_extracted s e)).map
            (fun p => (p.1, p.2 + 1))

-- =====================================================================
-- Availability-negotiation loop
-- (run_interactive_voice_booking lines 118-240).
-- =====================================================================

/-- One iteration's external observations in the busy branch: the
transcribed alternate-time response and, when it is consulted, the
outcome of the extraction collaborator (`.error` = the extraction call
raised and was caught at lines 218-225). -/
structure CalTurn where
  response : String := ""
  extracted : Except String Extracted := .ok {}

/-- One run of the availability-negotiation `while` loop.  `check` is
the availability collaborator invoked at line 143 (`self.check_calendar`;
the engine's own stub always reports free, so a busy or failing backend
is a loop parameter exactly as the spec treats it).  `turns i` are the
observations of attempt `i`.  `fuel` is the remaining attempt budget
(`max_calendar_retries - calendar_attempt`), `attempt` the attempts
already consumed.  Returns (state, calendar_confirmed, final attempt
count, spoken messages in order). -/
def avail_loop_go (check : State → State) (turns : Nat → CalTurn) :
    Nat → Nat → State → List String → State × Bool × Nat × List String
  | 0, attempt, s, spoken => (s, false, attempt, spoken)
  | fuel + 1, attempt, s, spoken =>
    let a := attempt + 1
    let spoken := spoken ++
      [if a = 1 then "Now let me check your calendar availability..."
       else "Let me check that time..."]
    let s1 := check s
    if s1.errors ≠ [] then
      ({ s1 with status := .failed }, false, a, spoken ++
        ["Sorry, I couldn't check your calendar. Error: "
          ++ s1.errors.headD ""])
    else if s1.driver_calendar_free then
      (s1, true, a, spoken ++
        ["Great! You are available at " ++ opt_str s1.requested_time
          ++ " on " ++ opt_str s1.requested_date ++ "."])
    else
      let spoken := spoken ++
        ["You're already busy at " ++ opt_str s1.requested_time
          ++ " on " ++ opt_str s1.requested_date
          ++ ". What time would work better for you?"]
      let t := turns a
      if py_strip t.response = "" then
        avail_loop_go check turns fuel a s1 spoken
      else
        match t.extracted with
        | .error _ =>
          avail_loop_go check turns fuel a s1 (spoken ++
            ["I couldn't understand the new time. Could you please say it again?"])
        | .ok e =>
          let s2 := if str_truthy e.time then
            { s1 with requested_time := e.time } else s1
          let s3 := if str_truthy e.date then
            { s2 with requested_date := e.date } else s2
          avail_loop_go check turns fuel a { s3 with errors := [] } spoken

/-- The give-up message of line 235 (max_calendar_retries = 3). -/
def gave_up_msg : String :=
  "I couldn't find an available time after 3 attempts. Please try again later."

/-- The whole Step-2 availability segment: the bounded loop
(`max_calendar_retries = 3`) followed by the give-up check of lines
227-238, which marks the session failed and SPEAKS a message naming the
attempt count but appends nothing to `errors`. -/
def availability_segment (check : State → State) (turns : Nat → CalTurn)
    (s : State) : State × Bool × Nat × List String :=
  let r := avail_loop_go check turns 3 0 s []
  let s' := r.1
  let conf := r.2.1
  if (s'.status ≠ .failed ∧ s'.status ≠ .cancelled) ∧ ¬ conf then
    ({ s' with status := .failed }, conf, r.2.2.1, r.2.2.2 ++ [gave_up_msg])
  else r

/-- An availability backend that reports busy on every call (the
hypothesis of the boundary scenario; shaped like `check_calendar`, it
only writes the availability flag). -/
def always_busy (s : State) : State :=
  { s with driver_calendar_free := false }

-- =====================================================================
-- `VoiceIntegratedOrchestrator.voice_select_restaurant`
-- (core/voice_integrated_orchestrator.py lines 215-249).
-- =====================================================================

/-- Python `max(candidates, key=lambda r: r.rating)`: the first
candidate of maximal rating (later elements replace the current best
only when strictly greater). -/
def py_max_rating (r : Restaurant) (rs : List Restaurant) : Restaurant :=
  rs.foldl (fun best x => if x.rating > best.rating then x else best) r

/-- `voice_select_restaurant`: error on an empty list, otherwise
auto-select the highest-rated candidate of the WHOLE list (line 243);
the spoken presentation lists only the first three. -/
def voice_select_restaurant (s : State) : State :=
  match s.restaurant_candidates with
  | [] => add_error s "No restaurants found"
  | r :: rs => { s with selected_restaurant := some (py_max_rating r rs) }

-- =====================================================================
-- Engine invariants.
-- =====================================================================

/-- Equality of the control-relevant fields a handler does not touch. -/
def FrameEq (s s' : State) : Prop :=
  s'.status = s.status ∧ s'.retry_count = s.retry_count ∧
  s'.max_retries = s.max_retries ∧
  s'.booking_confirmed = s.booking_confirmed ∧
  s'.selected_restaurant = s.selected_restaurant ∧
  s'.call_connected = s.call_connected

theorem frameEq_refl (s : State) : FrameEq s s :=
  ⟨rfl, rfl, rfl, rfl, rfl, rfl⟩

theorem frameEq_trans {a b c : State} (h1 : FrameEq a b)
    (h2 : FrameEq b c) : FrameEq a c := by
  obtain ⟨x1, x2, x3, x4, x5, x6⟩ := h1
  obtain ⟨y1, y2, y3, y4, y5, y6⟩ := h2
  exact ⟨y1.trans x1, y2.trans x2, y3.trans x3, y4.trans x4,
    y5.trans x5, y6.trans x6⟩

theorem frame_demo_party (utt : List Char) (s : State) :
    FrameEq s (demo_party utt s) := by
  unfold demo_party FrameEq
  split <;> exact ⟨rfl, rfl, rfl, rfl, rfl, rfl⟩

theorem frame_demo_cuisine (utt : List Char) (s : State) :
    FrameEq s (demo_cuisine utt s) := by
  unfold demo_cuisine
  split
  · exact ⟨rfl, rfl, rfl, rfl, rfl, rfl⟩
  · split
    · exact frameEq_refl s
    · exact ⟨rfl, rfl, rfl, rfl, rfl, rfl⟩

theorem frame_demo_location (utt : List Char) (s : State) :
    FrameEq s (demo_location utt s) := by
  unfold demo_location
  split
  · split <;> exact ⟨rfl, rfl, rfl, rfl, rfl, rfl⟩
  · exact ⟨rfl, rfl, rfl, rfl, rfl, rfl⟩

theorem frame_demo_date (utt : List Char) (s : State) :
    FrameEq s (demo_date utt s) := by
  unfold demo_date
  split
  · exact ⟨rfl, rfl, rfl, rfl, rfl, rfl⟩
  · split <;> exact ⟨rfl, rfl, rfl, rfl, rfl, rfl⟩

theorem frame_demo_time (utt : List Char) (s : State) :
    FrameEq s (demo_time utt s) := by
  unfold demo_time
  split <;> exact ⟨rfl, rfl, rfl, rfl, rfl, rfl⟩

theorem frame_add_error (s : State) (e : String) :
    FrameEq s (add_error s e) :=
  ⟨rfl, rfl, rfl, rfl, rfl, rfl⟩

theorem frame_parse_intent (cfg : Settings) (env : Env) (s : State) :
    FrameEq s (parse_intent cfg env s) := by
  unfold parse_intent
  split
  · unfold parse_intent_demo
    exact frameEq_trans (frameEq_trans (frameEq_trans (frameEq_trans
      (frame_demo_party _ s) (frame_demo_cuisine _ _))
      (frame_demo_location _ _)) (frame_demo_date _ _))
      (frame_demo_time _ _)
  · cases henv : env.intent_result with
    | ok it =>
      dsimp only
      refine ⟨?_, ?_, ?_, ?_, ?_, ?_⟩ <;> split <;> rfl
    | error msg => exact frame_add_error s _

theorem frame_check_calendar (cfg : Settings) (s : State) :
    FrameEq s (check_calendar cfg s) := by
  unfold check_calendar
  split <;> exact ⟨rfl, rfl, rfl, rfl, rfl, rfl⟩

theorem frame_search_restaurants (cfg : Settings) (s : State) :
    FrameEq s (search_restaurants cfg s) := by
  unfold search_restaurants
  split <;> exact ⟨rfl, rfl, rfl, rfl, rfl, rfl⟩

theorem frame_prepare_call (cfg : Settings) (env : Env) (s : State) :
    FrameEq s (prepare_call cfg env s) := by
  unfold prepare_call
  split
  · exact frame_add_error s _
  · split
    · exact ⟨rfl, rfl, rfl, rfl, rfl, rfl⟩
    · cases henv : env.prepare_response with
      | ok raw => exact ⟨rfl, rfl, rfl, rfl, rfl, rfl⟩
      | error e => exact ⟨rfl, rfl, rfl, rfl, rfl, rfl⟩

/-- `select_restaurant` leaves everything but the selection unchanged,
and only ever strengthens the selection. -/
theorem select_restaurant_spec (s : State) :
    (select_restaurant s).status = s.status ∧
    (select_restaurant s).retry_count = s.retry_count ∧
    (select_restaurant s).max_retries = s.max_retries ∧
    (select_restaurant s).booking_confirmed = s.booking_confirmed ∧
    (select_restaurant s).call_connected = s.call_connected ∧
    ((select_restaurant s).selected_restaurant = s.selected_restaurant ∨
      (select_restaurant s).selected_restaurant.isSome) := by
  unfold select_restaurant add_error
  split <;> simp_all

/-- A successful `make_call` keeps the frame except for connecting the
call, and certifies that a restaurant was selected. -/
theorem make_call_spec (cfg : Settings) (env : Env) (s s' : State)
    (h : make_call cfg env s = .ok s') :
    s'.status = s.status ∧ s'.retry_count = s.retry_count ∧
    s'.max_retries = s.max_retries ∧
    s'.booking_confirmed = s.booking_confirmed ∧
    s'.selected_restaurant = s.selected_restaurant ∧
    s.selected_restaurant.isSome ∧ s'.call_connected = true := by
  unfold make_call at h
  split at h
  · exact absurd h (by simp)
  · rename_i hsel
    split at h <;>
    · rw [Except.ok.injEq] at h
      subst h
      refine ⟨rfl, rfl, rfl, rfl, rfl, ?_, rfl⟩
      simpa [Option.isSome_iff_ne_none] using hsel

/-- `converse` keeps the frame except for the booking flag, which it
can only set while the call is connected. -/
theorem converse_spec (cfg : Settings) (s : State) :
    (converse cfg s).status = s.status ∧
    (converse cfg s).retry_count = s.retry_count ∧
    (converse cfg s).max_retries = s.max_retries ∧
    (converse cfg s).selected_restaurant = s.selected_restaurant ∧
    (converse cfg s).call_connected = s.call_connected ∧
    ((converse cfg s).booking_confirmed = true →
      s.booking_confirmed = true ∨ s.call_connected = true) := by
  unfold converse add_error add_message increment_turn
  repeat' split <;> simp_all

/-- `confirm_booking` only sets the status: to `completed` exactly when
the booking is confirmed and a restaurant is selected. -/
theorem confirm_booking_spec (s : State) :
    (confirm_booking s).retry_count = s.retry_count ∧
    (confirm_booking s).max_retries = s.max_retries ∧
    (confirm_booking s).booking_confirmed = s.booking_confirmed ∧
    (confirm_booking s).selected_restaurant = s.selected_restaurant ∧
    (confirm_booking s).call_connected = s.call_connected ∧
    (if s.booking_confirmed = true ∧ s.selected_restaurant.isSome then
      (confirm_booking s).status = .completed
    else (confirm_booking s).status = .failed) := by
  unfold confirm_booking add_error
  split <;> split <;> simp_all

/-- `handle_error` increments the retry counter exactly when the budget
allows and marks the session failed otherwise; nothing else changes
(in particular no error entry is appended). -/
theorem handle_error_spec (s : State) :
    (handle_error s).max_retries = s.max_retries ∧
    (handle_error s).booking_confirmed = s.booking_confirmed ∧
    (handle_error s).selected_restaurant = s.selected_restaurant ∧
    (handle_error s).call_connected = s.call_connected ∧
    (handle_error s).errors = s.errors ∧
    (if can_retry s then
      (handle_error s).retry_count = s.retry_count + 1 ∧
        (handle_error s).status = s.status
    else (handle_error s).retry_count = s.retry_count ∧
      (handle_error s).status = .failed) := by
  unfold handle_error increment_retry
  split <;> simp_all

/-- The data invariant every engine step preserves: the retry budget is
respected, and a confirmed booking or a connected call certifies a
selected restaurant. -/
def CoreInv (s : State) : Prop :=
  s.retry_count ≤ s.max_retries ∧
  (s.booking_confirmed = true → s.selected_restaurant.isSome) ∧
  (s.call_connected = true → s.selected_restaurant.isSome)

/-- The configuration invariant at every node entry of an engine run:
the data invariant, an `Active` status, and — at the error handler —
an unconfirmed booking (the conversation router only sends unconfirmed
sessions there). -/
def Good (n : Node) (s : State) : Prop :=
  CoreInv s ∧ s.status = .active ∧
    (n = .handle_error → s.booking_confirmed = false)

/-- The conversation router sends a session to the error handler only
when its booking is unconfirmed (the confirmed branch has priority). -/
theorem route_conv_not_booking {cfg : Settings} {s : State}
    (h : route_conversation cfg s ≠ ConvRoute.booking_confirmed) :
    s.booking_confirmed = false := by
  unfold route_conversation at h
  by_cases hb : s.booking_confirmed
  · simp [hb] at h
  · simpa using hb

/-- Case analysis of the conditional edge after `converse`. -/
theorem routeFrom_converse_cases (cfg : Settings) (s : State) (n' : Node)
    (h : routeFrom cfg .converse s = some n') :
    n' = .confirm_booking ∨ n' = .search_restaurants ∨
      (n' = .handle_error ∧ s.booking_confirmed = false) := by
  simp only [routeFrom] at h
  cases hrc : route_conversation cfg s <;> rw [hrc] at h <;>
    simp only [Option.some.injEq] at h
  · exact .inl h.symm
  · exact .inr (.inl h.symm)
  · exact .inr (.inr ⟨h.symm, route_conv_not_booking (by rw [hrc]; simp)⟩)
  · exact .inr (.inr ⟨h.symm, route_conv_not_booking (by rw [hrc]; simp)⟩)

/-- Case analysis of the conditional edge after `handle_error`: the
fallback edge demands a confirmed booking, retry demands budget. -/
theorem routeFrom_handle_error_cases (cfg : Settings) (s : State)
    (n' : Node) (h : routeFrom cfg .handle_error s = some n') :
    (n' = .make_call ∧ can_retry s = true) ∨
      (n' = .confirm_booking ∧ s.booking_confirmed = true) := by
  simp only [routeFrom, route_error_recovery] at h
  by_cases hcr : can_retry s
  · simp only [hcr, if_true, Option.some.injEq] at h
    exact .inl ⟨h.symm, hcr⟩
  · by_cases hb : s.booking_confirmed
    · simp only [hcr, hb, if_false, if_true, Bool.false_eq_true,
        Option.some.injEq] at h
      exact .inr ⟨h.symm, hb⟩
    · simp [hcr, hb] at h

theorem frameEq_coreInv {s s' : State} (h : FrameEq s s')
    (hc : CoreInv s) : CoreInv s' := by
  obtain ⟨h1, h2, h3, h4, h5, h6⟩ := h
  obtain ⟨c1, c2, c3⟩ := hc
  exact ⟨by rw [h2, h3]; exact c1, by rw [h4, h5]; exact c2,
    by rw [h6, h5]; exact c3⟩

/-- One engine step from a good configuration lands in a good
configuration. -/
theorem good_next (cfg : Settings) (env : Env) {n : Node} {s s' : State}
    {n' : Node} (hg : Good n s) (he : execNode cfg env n s = .ok s')
    (hr : routeFrom cfg n s' = some n') : Good n' s' := by
  obtain ⟨hc, hst, hhe⟩ := hg
  cases n with
  | parse_intent =>
    cases he
    have h := frame_parse_intent cfg env s
    cases hr
    exact ⟨frameEq_coreInv h hc, by rw [h.1, hst], by simp⟩
  | check_calendar =>
    cases he
    have h := frame_check_calendar cfg s
    cases hr
    exact ⟨frameEq_coreInv h hc, by rw [h.1, hst], by simp⟩
  | search_restaurants =>
    cases he
    have h := frame_search_restaurants cfg s
    cases hr
    exact ⟨frameEq_coreInv h hc, by rw [h.1, hst], by simp⟩
  | select_restaurant =>
    cases he
    have h := select_restaurant_spec s
    cases hr
    refine ⟨⟨by rw [h.2.1, h.2.2.1]; exact hc.1, ?_, ?_⟩,
      by rw [h.1, hst], by simp⟩
    · intro hb
      rcases h.2.2.2.2.2 with hsel | hsel
      · rw [hsel]; exact hc.2.1 (by rw [← h.2.2.2.1]; exact hb)
      · exact hsel
    · intro hcc
      rcases h.2.2.2.2.2 with hsel | hsel
      · rw [hsel]; exact hc.2.2 (by rw [← h.2.2.2.2.1]; exact hcc)
      · exact hsel
  | prepare_call =>
    cases he
    have h := frame_prepare_call cfg env s
    cases hr
    exact ⟨frameEq_coreInv h hc, by rw [h.1, hst], by simp⟩
  | make_call =>
    have h := make_call_spec cfg env s s' he
    cases hr
    refine ⟨⟨by rw [h.2.1, h.2.2.1]; exact hc.1, ?_, ?_⟩,
      by rw [h.1, hst], by simp⟩
    · intro _; rw [h.2.2.2.2.1]; exact h.2.2.2.2.2.1
    · intro _; rw [h.2.2.2.2.1]; exact h.2.2.2.2.2.1
  | converse =>
    cases he
    have h := converse_spec cfg s
    have hcore : CoreInv (converse cfg s) := by
      refine ⟨by rw [h.2.1, h.2.2.1]; exact hc.1, ?_, ?_⟩
      · intro hb
        rw [h.2.2.2.1]
        rcases h.2.2.2.2.2 hb with hb' | hcc'
        · exact hc.2.1 hb'
        · exact hc.2.2 hcc'
      · intro hcc
        rw [h.2.2.2.1]
        exact hc.2.2 (by rw [← h.2.2.2.2.1]; exact hcc)
    have hst' : (converse cfg s).status = .active := by rw [h.1, hst]
    rcases routeFrom_converse_cases cfg (converse cfg s) n' hr with
      h1 | h1 | ⟨h1, h2⟩
    · subst h1; exact ⟨hcore, hst', by simp⟩
    · subst h1; exact ⟨hcore, hst', by simp⟩
    · subst h1; exact ⟨hcore, hst', fun _ => h2⟩
  | confirm_booking => cases he; cases hr
  | handle_error =>
    cases he
    obtain ⟨hmr, hbk, hsel, hcc, herr, hif⟩ := handle_error_spec s
    have hb := hhe rfl
    rcases routeFrom_handle_error_cases cfg (handle_error s) n' hr with
      ⟨hn, hcr⟩ | ⟨hn, hbk'⟩
    · subst hn
      by_cases hcs : can_retry s
      · rw [if_pos hcs] at hif
        obtain ⟨hrc, hstat⟩ := hif
        refine ⟨⟨?_, ?_, ?_⟩, by rw [hstat, hst], by simp⟩
        · simp only [can_retry, decide_eq_true_eq] at hcr
          omega
        · intro hbk2; rw [hbk, hb] at hbk2; cases hbk2
        · intro hcc2
          rw [hsel]
          exact hc.2.2 (by rw [← hcc]; exact hcc2)
      · exfalso
        rw [if_neg hcs] at hif
        obtain ⟨hrc, -⟩ := hif
        apply hcs
        simp only [can_retry, decide_eq_true_eq] at hcr ⊢
        rw [hrc, hmr] at hcr
        exact hcr
    · exfalso
      rw [hbk, hb] at hbk'
      cases hbk'

/-- Every observation point of a run started in a good configuration is
a good configuration. -/
theorem trace_good (cfg : Settings) (env : Env) :
    ∀ (fuel : Nat) (n : Node) (s : State), Good n s →
      ∀ p ∈ (runTrace cfg env fuel n s).1, Good p.1 p.2 := by
  intro fuel
  induction fuel with
  | zero => intro n s _ p hp; simp [runTrace] at hp
  | succ f ih =>
    intro n s hg p hp
    unfold runTrace at hp
    cases he : execNode cfg env n s with
    | error msg =>
      rw [he] at hp
      simp at hp
      subst hp
      exact hg
    | ok s' =>
      simp only [he] at hp
      cases hr : routeFrom cfg n s' with
      | none =>
        simp only [hr] at hp
        simp at hp
        subst hp
        exact hg
      | some n' =>
        simp only [hr] at hp
        simp at hp
        rcases hp with hp | hp
        · subst hp; exact hg
        · exact ih n' s' (good_next cfg env hg he hr) p hp

/-- The fresh session state is a good configuration at the entry node. -/
theorem init_good (sid driver_id utt : String) :
    Good .parse_intent (init_state sid driver_id utt) := by
  unfold Good CoreInv init_state
  refine ⟨⟨by simp, by simp, by simp⟩, by simp, by simp⟩

/-- Any single handler execution preserves the data invariant. -/
theorem exec_core (cfg : Settings) (env : Env) {n : Node} {s s' : State}
    (hc : CoreInv s) (he : execNode cfg env n s = .ok s') : CoreInv s' := by
  cases n with
  | parse_intent =>
    cases he; exact frameEq_coreInv (frame_parse_intent cfg env s) hc
  | check_calendar =>
    cases he; exact frameEq_coreInv (frame_check_calendar cfg s) hc
  | search_restaurants =>
    cases he; exact frameEq_coreInv (frame_search_restaurants cfg s) hc
  | select_restaurant =>
    cases he
    have h := select_restaurant_spec s
    refine ⟨by rw [h.2.1, h.2.2.1]; exact hc.1, ?_, ?_⟩
    · intro hb
      rcases h.2.2.2.2.2 with hsel | hsel
      · rw [hsel]; exact hc.2.1 (by rw [← h.2.2.2.1]; exact hb)
      · exact hsel
    · intro hcc
      rcases h.2.2.2.2.2 with hsel | hsel
      · rw [hsel]; exact hc.2.2 (by rw [← h.2.2.2.2.1]; exact hcc)
      · exact hsel
  | prepare_call =>
    cases he; exact frameEq_coreInv (frame_prepare_call cfg env s) hc
  | make_call =>
    have h := make_call_spec cfg env s s' he
    refine ⟨by rw [h.2.1, h.2.2.1]; exact hc.1, ?_, ?_⟩
    · intro _; rw [h.2.2.2.2.1]; exact h.2.2.2.2.2.1
    · intro _; rw [h.2.2.2.2.1]; exact h.2.2.2.2.2.1
  | converse =>
    cases he
    have h := converse_spec cfg s
    refine ⟨by rw [h.2.1, h.2.2.1]; exact hc.1, ?_, ?_⟩
    · intro hb
      rw [h.2.2.2.1]
      rcases h.2.2.2.2.2 hb with hb' | hcc'
      · exact hc.2.1 hb'
      · exact hc.2.2 hcc'
    · intro hcc
      rw [h.2.2.2.1]
      exact hc.2.2 (by rw [← h.2.2.2.2.1]; exact hcc)
  | confirm_booking =>
    cases he
    have h := confirm_booking_spec s
    refine ⟨by rw [h.1, h.2.1]; exact hc.1, ?_, ?_⟩
    · intro hb
      rw [h.2.2.2.1]
      exact hc.2.1 (by rw [← h.2.2.1]; exact hb)
    · intro hcc
      rw [h.2.2.2.1]
      exact hc.2.2 (by rw [← h.2.2.2.2.1]; exact hcc)
  | handle_error =>
    cases he
    obtain ⟨hmr, hbk, hsel, hcc, herr, hif⟩ := handle_error_spec s
    by_cases hcs : can_retry s
    · rw [if_pos hcs] at hif
      refine ⟨?_, ?_, ?_⟩
      · rw [hif.1, hmr]
        simp only [can_retry, decide_eq_true_eq] at hcs
        omega
      · intro hb; rw [hsel]; exact hc.2.1 (by rw [← hbk]; exact hb)
      · intro h2; rw [hsel]; exact hc.2.2 (by rw [← hcc]; exact h2)
    · rw [if_neg hcs] at hif
      refine ⟨by rw [hif.1, hmr]; exact hc.1, ?_, ?_⟩
      · intro hb; rw [hsel]; exact hc.2.1 (by rw [← hbk]; exact hb)
      · intro h2; rw [hsel]; exact hc.2.2 (by rw [← hcc]; exact h2)

/-- The state carried by a run outcome. -/
def result_state : RunResult → State
  | .finished s => s
  | .raised s _ => s
  | .outOfFuel _ s => s

/-- The outcome state of any run from a good configuration satisfies the
data invariant. -/
theorem run_result_core (cfg : Settings) (env : Env) :
    ∀ (fuel : Nat) (n : Node) (s : State), Good n s →
      CoreInv (result_state (runTrace cfg env fuel n s).2) := by
  intro fuel
  induction fuel with
  | zero =>
    intro n s hg
    simpa [runTrace, result_state] using hg.1
  | succ f ih =>
    intro n s hg
    cases he : execNode cfg env n s with
    | error msg =>
      simp only [runTrace, he, result_state]
      exact hg.1
    | ok s' =>
      cases hr : routeFrom cfg n s' with
      | none =>
        simp only [runTrace, he, hr, result_state]
        exact exec_core cfg env hg.1 he
      | some n' =>
        simp only [runTrace, he, hr]
        exact ih n' s' (good_next cfg env hg he hr)

/-- C1: for every session run by the engine, the status field moves
only forward.  Every state observed at a node entry is still `Active`
(so the status changes at most once, at the very last handler the run
executes, to a single terminal value), the error handler is only ever
entered with an unconfirmed booking, and from the error handler the
fallback edge into `confirm_booking` is never taken — in particular a
state marked `Failed` by `handle_error` is never later completed. -/
theorem c1_status_forward_only (cfg : Settings) (env : Env) (fuel : Nat)
    (sid did utt : String) (p : Node × State)
    (hp : p ∈ (runTrace cfg env fuel .parse_intent
      (init_state sid did utt)).1) :
    p.2.status = .active ∧
    (p.1 = .handle_error → p.2.booking_confirmed = false) ∧
    (p.1 = .handle_error →
      routeFrom cfg .handle_error (handle_error p.2) ≠
        some .confirm_booking) := by
  have hg := trace_good cfg env fuel _ _ (init_good sid did utt) p hp
  refine ⟨hg.2.1, hg.2.2, ?_⟩
  intro hhe hroute
  rcases routeFrom_handle_error_cases cfg (handle_error p.2) _ hroute with
    ⟨hn, -⟩ | ⟨-, hbk⟩
  · cases hn
  · obtain ⟨-, hbkeq, -, -, -, -⟩ := handle_error_spec p.2
    rw [hbkeq, hg.2.2 hhe] at hbk
    cases hbk

/-- Witness for C1 at the first observation point of a concrete demo
run. -/
theorem c1_status_forward_only_witness :
    (init_state "w1" "w1" "").status = .active ∧
    (Node.parse_intent = .handle_error →
      (init_state "w1" "w1" "").booking_confirmed = false) ∧
    (Node.parse_intent = .handle_error →
      routeFrom {} .handle_error (handle_error (init_state "w1" "w1" "")) ≠
        some .confirm_booking) :=
  c1_status_forward_only {} {} 1 "w1" "w1" ""
    (Node.parse_intent, init_state "w1" "w1" "") (by decide)

/-- C2: at every observation point of every engine run, and in the
final state it returns, `retry_count ≤ max_retries`; moreover
`handle_error` increments the counter exactly when `can_retry()`
(`retry_count < max_retries`) holds and leaves it unchanged otherwise,
so the counter is never decremented and the bound is preserved. -/
theorem c2_retry_bound (cfg : Settings) (env : Env) (fuel : Nat)
    (sid did utt : String) :
    (∀ p ∈ (runTrace cfg env fuel .parse_intent
        (init_state sid did utt)).1,
      p.2.retry_count ≤ p.2.max_retries) ∧
    (run_booking_session cfg env fuel sid did utt).retry_count ≤
      (run_booking_session cfg env fuel sid did utt).max_retries ∧
    (∀ s : State, can_retry s = true →
      (handle_error s).retry_count = s.retry_count + 1) ∧
    (∀ s : State, can_retry s = false →
      (handle_error s).retry_count = s.retry_count) := by
  refine ⟨fun p hp =>
    (trace_good cfg env fuel _ _ (init_good sid did utt) p hp).1.1,
    ?_, ?_, ?_⟩
  · have hres := run_result_core cfg env fuel .parse_intent
      (init_state sid did utt) (init_good sid did utt)
    unfold run_booking_session
    cases h2 : (runTrace cfg env fuel .parse_intent
        (init_state sid did utt)).2 with
    | finished s =>
      rw [h2] at hres
      simpa [result_state] using hres.1
    | raised s msg =>
      rw [h2] at hres
      simp only [result_state] at hres
      simpa [add_error] using hres.1
    | outOfFuel n s =>
      rw [h2] at hres
      simp only [result_state] at hres
      simpa [add_error] using hres.1
  · intro s hcs
    obtain ⟨-, -, -, -, -, hif⟩ := handle_error_spec s
    rw [if_pos hcs] at hif
    exact hif.1
  · intro s hcs
    obtain ⟨-, -, -, -, -, hif⟩ := handle_error_spec s
    rw [if_neg (by simp [hcs])] at hif
    exact hif.1

/-- Witness for C2 on a concrete demo run. -/
theorem c2_retry_bound_witness :
    ((init_state "w2" "w2" "").retry_count ≤
      (init_state "w2" "w2" "").max_retries) ∧
    can_retry (init_state "w2" "w2" "") = true ∧
    (handle_error (init_state "w2" "w2" "")).retry_count =
      (init_state "w2" "w2" "").retry_count + 1 :=
  ⟨(c2_retry_bound {} {} 1 "w2" "w2" "").1
      (Node.parse_intent, init_state "w2" "w2" "") (by decide),
    by decide,
    (c2_retry_bound {} {} 1 "w2" "w2" "").2.2.1 _ (by decide)⟩

/-- C9: the router after `converse` evaluates exactly the documented
precedence (confirmed booking first, then errors, then the turn cap,
else alternatives), and whenever it returns `booking_confirmed` at an
observation point of an engine run, the next step executed is
`confirm_booking`, after which the run terminates with final status
`Completed`. -/
theorem c9_route_conversation (cfg : Settings) (env : Env) :
    (∀ s : State, route_conversation cfg s =
      (if s.booking_confirmed then ConvRoute.booking_confirmed
       else if s.errors ≠ [] then ConvRoute.error
       else if s.turn_count ≥ cfg.max_conversation_turns then
         ConvRoute.timeout
       else ConvRoute.need_alternatives)) ∧
    (∀ (fuel : Nat) (sid did utt : String) (s s' : State) (f : Nat),
      (Node.converse, s) ∈ (runTrace cfg env fuel .parse_intent
        (init_state sid did utt)).1 →
      execNode cfg env .converse s = .ok s' →
      s'.booking_confirmed = true →
      route_conversation cfg s' = .booking_confirmed ∧
      routeFrom cfg .converse s' = some .confirm_booking ∧
      runTrace cfg env (f + 2) .converse s =
        ([(.converse, s), (.confirm_booking, s')],
          .finished (confirm_booking s')) ∧
      (confirm_booking s').status = .completed) := by
  constructor
  · intro s
    unfold route_conversation has_errors
    by_cases hb : s.booking_confirmed
    · simp [hb]
    · by_cases herr : s.errors = []
      · simp [hb, herr]
      · simp [hb, herr, List.length_pos]
  · intro fuel sid did utt s s' f hp he hb
    have hg := trace_good cfg env fuel _ _ (init_good sid did utt) _ hp
    have hsel : s'.selected_restaurant.isSome :=
      (exec_core cfg env hg.1 he).2.1 hb
    have hs' : s' = converse cfg s := by
      simp only [execNode, Except.ok.injEq] at he
      exact he.symm
    subst hs'
    have hrc : route_conversation cfg (converse cfg s) =
        .booking_confirmed := by
      unfold route_conversation
      simp [hb]
    have hroute : routeFrom cfg .converse (converse cfg s) =
        some .confirm_booking := by
      simp only [routeFrom, hrc]
    refine ⟨hrc, hroute, ?_, ?_⟩
    · simp only [runTrace, execNode, routeFrom, hrc]
    · have h := confirm_booking_spec (converse cfg s)
      rw [if_pos ⟨hb, hsel⟩] at h
      exact h.2.2.2.2.2

/-- The first six handler states of the default demo-mode run, used to
witness the scenario claims on concrete data. -/
def w9_s1 : State := parse_intent {} {} (init_state "w9" "w9" "")

def w9_s2 : State := check_calendar {} w9_s1

def w9_s3 : State := search_restaurants {} w9_s2

def w9_s4 : State := select_restaurant w9_s3

def w9_s5 : State := prepare_call {} {} w9_s4

def w9_s6 : State :=
  match make_call {} {} w9_s5 with
  | .ok s => s
  | .error _ => w9_s5

def w9_s7 : State := converse {} w9_s6

/-- The exit state of any intent-completion loop run satisfies the
completion predicate: the loop can only stop when all five required
fields are truthy. -/
theorem intent_loop_exit_complete :
    ∀ (inputs : List (String × Extracted)) (s s' : State) (k : Nat),
      intent_loop_run inputs s = some (s', k) →
      has_all_required_details s' = true := by
  intro inputs
  induction inputs with
  | nil =>
    intro s s' k h
    unfold intent_loop_run at h
    split at h
    · rename_i hall
      rw [Option.some.injEq] at h
      rw [← (Prod.mk.injEq .. |>.mp h).1]
      exact hall
    · cases h
  | cons i rest ih =>
    obtain ⟨u, e⟩ := i
    intro s s' k h
    unfold intent_loop_run at h
    split at h
    · rename_i hall
      rw [Option.some.injEq] at h
      rw [← (Prod.mk.injEq .. |>.mp h).1]
      exact hall
    · dsimp only at h
      split at h <;>
      · rw [Option.map_eq_some'] at h
        obtain ⟨p, hp, hps⟩ := h
        rw [← (Prod.mk.injEq .. |>.mp hps).1]
        exact ih _ p.1 p.2 hp

/-- C10: the intent-completion loop judges field presence by Python
truthiness, not key presence: an update carrying `party_size = 0` or an
empty-string field never overwrites the current value, a state with a
falsy required field (e.g. `party_size = 0`) never satisfies the
completion predicate, and the loop can only exit in a state where every
required field is truthy. -/
theorem c10_truthiness (s : State) (e : Extracted) :
    (e.party_size = some 0 →
      (update_state_from_extracted s e).party_size = s.party_size) ∧
    (e.cuisine_type = some "" →
      (update_state_from_extracted s e).cuisine_type = s.cuisine_type) ∧
    (e.location = some "" →
      (update_state_from_extracted s e).location = s.location) ∧
    (e.date = some "" →
      (update_state_from_extracted s e).requested_date =
        s.requested_date) ∧
    (e.time = some "" →
      (update_state_from_extracted s e).requested_time =
        s.requested_time) ∧
    (s.party_size = some 0 → has_all_required_details s = false) ∧
    (∀ (inputs : List (String × Extracted)) (s' : State) (k : Nat),
      intent_loop_run inputs s = some (s', k) →
      has_all_required_details s' = true) := by
  refine ⟨?_, ?_, ?_, ?_, ?_, ?_,
    fun inputs s' k h => intent_loop_exit_complete inputs s s' k h⟩
  · intro h
    simp [update_state_from_extracted, h, nat_truthy]
  · intro h
    simp [update_state_from_extracted, h, str_truthy]
  · intro h
    simp [update_state_from_extracted, h, str_truthy]
  · intro h
    simp [update_state_from_extracted, h, str_truthy]
  · intro h
    simp [update_state_from_extracted, h, str_truthy]
  · intro h
    simp [has_all_required_details, h, nat_truthy]

/-- A state whose required fields are all set but whose party size is
the falsy `0`. -/
def w10_state : State :=
  { init_state "w10" "w10" "" with
    party_size := some 0
    cuisine_type := some "Italian"
    location := some "Boston"
    requested_date := some "2024-11-22"
    requested_time := some "19:00" }

/-- Witness for C10 at a concrete state and update. -/
theorem c10_truthiness_witness :
    (update_state_from_extracted
      { w10_state with party_size := some 2 }
      { party_size := some 0 }).party_size = some 2 ∧
    has_all_required_details w10_state = false :=
  ⟨(c10_truthiness { w10_state with party_size := some 2 }
      { party_size := some 0 }).1 rfl,
    (c10_truthiness w10_state {}).2.2.2.2.2.1 rfl⟩

/-- The SessionState after Scenario B's initial parse: location is the
only missing required field. -/
def sb_state : State :=
  { init_state "w5" "w5" "" with
    party_size := some 2
    cuisine_type := some "Italian"
    requested_date := some "2024-11-22"
    requested_time := some "19:00" }

/-- C5 counterexample: the claim reads the merge rule as "exactly the
fields present in the update overwrite".  The update carrying the
present field `party_size = 0` does NOT overwrite: the loop judges
presence by truthiness (C10), so the state keeps `party_size = 2`
where the claim as stated demands it become `0`. -/
theorem c5_counterexample :
    (Extracted.party_size { party_size := some 0 } = some 0) ∧
    (update_state_from_extracted sb_state
      { party_size := some 0 }).party_size = some 2 ∧
    some (2 : Nat) ≠ some 0 := by
  refine ⟨rfl, ?_, by decide⟩
  simp [update_state_from_extracted, nat_truthy, sb_state]

/-- C5 as amended: the merge is last-write-wins per field with presence
judged by truthiness — exactly the fields carrying a truthy value in
the update overwrite the corresponding SessionState fields, all other
fields are left untouched; and in Scenario B (only location missing,
one non-empty follow-up utterance whose extraction yields
"downtown"), the loop ends after exactly one iteration with
location = "downtown" and every other field unchanged. -/
theorem c5_merge_last_write_wins :
    (∀ (s : State) (e : Extracted),
      (update_state_from_extracted s e).party_size =
        (if nat_truthy e.party_size then e.party_size
         else s.party_size) ∧
      (update_state_from_extracted s e).cuisine_type =
        (if str_truthy e.cuisine_type then e.cuisine_type
         else s.cuisine_type) ∧
      (update_state_from_extracted s e).location =
        (if str_truthy e.location then e.location else s.location) ∧
      (update_state_from_extracted s e).requested_date =
        (if str_truthy e.date then e.date else s.requested_date) ∧
      (update_state_from_extracted s e).requested_time =
        (if str_truthy e.time then e.time else s.requested_time) ∧
      (update_state_from_extracted s e).status = s.status ∧
      (update_state_from_extracted s e).errors = s.errors) ∧
    intent_loop_run [("downtown", { location := some "downtown" })]
      sb_state = some ({ sb_state with location := some "downtown" }, 1) := by
  constructor
  · intro s e
    exact ⟨rfl, rfl, rfl, rfl, rfl, rfl, rfl⟩
  · decide

/-- Witness for C5's merge rule at a concrete state and update. -/
theorem c5_merge_last_write_wins_witness :
    (update_state_from_extracted sb_state
      { location := some "downtown" }).location =
      (if str_truthy (some "downtown") then some "downtown"
       else sb_state.location) ∧
    (update_state_from_extracted sb_state
      { location := some "downtown" }).party_size =
      (if nat_truthy none then none else sb_state.party_size) :=
  ⟨(c5_merge_last_write_wins.1 sb_state
      { location := some "downtown" }).2.2.1,
    (c5_merge_last_write_wins.1 sb_state
      { location := some "downtown" }).1⟩

/-- Under an always-busy availability check the negotiation loop
consumes one attempt per iteration no matter what the user answers
(silence, a failing extraction, or a fresh time all included), never
confirms, never appends an error, and never changes the status. -/
theorem avail_busy_go (turns : Nat → CalTurn) :
    ∀ (fuel a : Nat) (s : State) (spoken : List String),
      s.errors = [] →
      (avail_loop_go always_busy turns fuel a s spoken).2.1 = false ∧
      (avail_loop_go always_busy turns fuel a s spoken).2.2.1 =
        a + fuel ∧
      (avail_loop_go always_busy turns fuel a s spoken).1.errors = [] ∧
      (avail_loop_go always_busy turns fuel a s spoken).1.status =
        s.status := by
  intro fuel
  induction fuel with
  | zero =>
    intro a s spoken herr
    exact ⟨rfl, rfl, herr, rfl⟩
  | succ f ih =>
    intro a s spoken herr
    unfold avail_loop_go
    dsimp only
    rw [if_neg (by simp [always_busy, herr]),
      if_neg (by simp [always_busy])]
    by_cases hresp : py_strip (turns (a + 1)).response = ""
    · rw [if_pos hresp]
      refine ⟨(ih _ _ _ (by simpa using herr)).1,
        (ih _ _ _ (by simpa using herr)).2.1.trans (by omega),
        (ih _ _ _ (by simpa using herr)).2.2.1,
        (ih _ _ _ (by simpa using herr)).2.2.2⟩
    · rw [if_neg hresp]
      cases hext : (turns (a + 1)).extracted with
      | error msg =>
        refine ⟨(ih _ _ _ (by simpa using herr)).1,
          (ih _ _ _ (by simpa using herr)).2.1.trans (by omega),
          (ih _ _ _ (by simpa using herr)).2.2.1,
          (ih _ _ _ (by simpa using herr)).2.2.2⟩
      | ok e =>
        refine ⟨(ih _ _ _ rfl).1,
          (ih _ _ _ rfl).2.1.trans (by omega),
          (ih _ _ _ rfl).2.2.1, ?_⟩
        rw [(ih _ _ _ rfl).2.2.2]
        split <;> split <;> rfl

/-- The availability segment under an always-busy check, from a clean
active state: exactly 3 attempts, unconfirmed, status forced to
`Failed`, errors untouched, the spoken give-up message last. -/
theorem avail_segment_busy (turns : Nat → CalTurn) (s : State)
    (herr : s.errors = []) (hst : s.status = .active) :
    (availability_segment always_busy turns s).2.2.1 = 3 ∧
    (availability_segment always_busy turns s).2.1 = false ∧
    (availability_segment always_busy turns s).1.status = .failed ∧
    (availability_segment always_busy turns s).1.errors = [] ∧
    (availability_segment always_busy turns s).2.2.2.getLast? =
      some gave_up_msg ∧
    is_substr "3".toList gave_up_msg.toList = true := by
  obtain ⟨h1, h2, h3, h4⟩ := avail_busy_go turns 3 0 s [] herr
  unfold availability_segment
  rw [if_pos ?side]
  case side =>
    refine ⟨⟨?_, ?_⟩, ?_⟩
    · rw [h4, hst]; decide
    · rw [h4, hst]; decide
    · rw [h1]; decide
  refine ⟨h2, h1, rfl, h3, List.getLast?_concat _, by decide⟩

/-- C4 as amended: with an always-busy check and the attempt cap of 3,
the availability segment performs exactly 3 attempts (the counter is
bumped at the top of each iteration and an empty response still
consumes the attempt), ends unconfirmed with status `Failed`, appends
NOTHING to the session state's errors, and only SPEAKS the give-up
message naming the attempt count 3. -/
theorem c4_busy_exhaustion (turns : Nat → CalTurn) (s : State)
    (herr : s.errors = []) (hst : s.status = .active) :
    (availability_segment always_busy turns s).2.2.1 = 3 ∧
    (availability_segment always_busy turns s).2.1 = false ∧
    (availability_segment always_busy turns s).1.status = .failed ∧
    (availability_segment always_busy turns s).1.errors = [] ∧
    (availability_segment always_busy turns s).2.2.2.getLast? =
      some gave_up_msg ∧
    is_substr "3".toList gave_up_msg.toList = true :=
  avail_segment_busy turns s herr hst

/-- The clean state at the head of the boundary scenario. -/
def c4_state : State := init_state "c4" "c4" ""

/-- A user who stays silent at every negotiation prompt. -/
def silent_turns : Nat → CalTurn := fun _ => {}

/-- C4 counterexample: on the concrete always-busy, always-silent run
the loop does stop after exactly 3 attempts with a failed status, but
the session state's errors list is EMPTY afterwards — no error naming
the attempt count (nor any other) is recorded in the session state, the
count is only spoken. -/
theorem c4_counterexample :
    (availability_segment always_busy silent_turns c4_state).2.2.1 = 3 ∧
    (availability_segment always_busy silent_turns c4_state).1.status =
      .failed ∧
    (availability_segment always_busy silent_turns c4_state).1.errors =
      [] := by
  decide

/-- A user who always proposes 7 pm as the alternate time. -/
def c3_turns : Nat → CalTurn :=
  fun _ => { response := "7 pm", extracted := .ok { time := some "19:00" } }

/-- The clean state of the C3 exhaustion scenario. -/
def c3_state : State := init_state "c3" "c3" ""

/-- C3 counterexample: the availability-negotiation exhaustion path
assigns the terminal status `Failed` while the errors list is empty at
that moment — no entry describing the cause was ever appended. -/
theorem c3_counterexample :
    (availability_segment always_busy c3_turns c3_state).1.status =
      .failed ∧
    (availability_segment always_busy c3_turns c3_state).1.errors =
      [] := by
  decide

/-- C3 as amended: `confirm_booking` appends an error before every
`Failed` it assigns, and `handle_error` never appends (it relies on the
errors already recorded when the error route was taken); but the
availability-negotiation exhaustion path assigns `Failed` without
appending anything, so a `Failed` status can be observed with empty
errors. -/
theorem c3_failed_error_paths (s : State) :
    ((confirm_booking s).status = .failed →
      (confirm_booking s).errors ≠ []) ∧
    (handle_error s).errors = s.errors ∧
    (∀ turns : Nat → CalTurn, s.errors = [] → s.status = .active →
      (availability_segment always_busy turns s).1.status = .failed ∧
      (availability_segment always_busy turns s).1.errors = []) := by
  refine ⟨?_, (handle_error_spec s).2.2.2.2.1, ?_⟩
  · unfold confirm_booking
    split
    · intro _
      simp [add_error]
    · intro h
      cases h
  · intro turns herr hst
    obtain ⟨h1, h2, h3, h4, h5, h6⟩ := avail_segment_busy turns s herr hst
    exact ⟨h3, h4⟩

/-- Witness for C3 on the silent concrete scenario. -/
theorem c3_failed_error_paths_witness :
    ((confirm_booking c3_state).status = .failed →
      (confirm_booking c3_state).errors ≠ []) ∧
    (availability_segment always_busy silent_turns c3_state).1.status =
      .failed ∧
    (availability_segment always_busy silent_turns c3_state).1.errors =
      [] :=
  ⟨(c3_failed_error_paths c3_state).1,
    (c3_failed_error_paths c3_state).2.2 silent_turns rfl rfl⟩

/-- Witness for C4 on the silent concrete scenario. -/
theorem c4_busy_exhaustion_witness :
    (availability_segment always_busy silent_turns c4_state).2.2.1 = 3 ∧
    (availability_segment always_busy silent_turns c4_state).2.1 =
      false ∧
    (availability_segment always_busy silent_turns c4_state).1.status =
      .failed ∧
    (availability_segment always_busy silent_turns c4_state).1.errors =
      [] ∧
    (availability_segment always_busy silent_turns
      c4_state).2.2.2.getLast? = some gave_up_msg ∧
    is_substr "3".toList gave_up_msg.toList = true :=
  c4_busy_exhaustion silent_turns c4_state rfl rfl

/-- Witness for C9: in the concrete demo run, `converse` confirms the
booking below the turn cap, the router returns `booking_confirmed`, the
next executed step is `confirm_booking` and the run finishes
`Completed`. -/
theorem c9_route_conversation_witness :
    route_conversation {} w9_s7 = .booking_confirmed ∧
    routeFrom {} .converse w9_s7 = some .confirm_booking ∧
    runTrace {} {} 5 .converse w9_s6 =
      ([(.converse, w9_s6), (.confirm_booking, w9_s7)],
        .finished (confirm_booking w9_s7)) ∧
    (confirm_booking w9_s7).status = .completed :=
  (c9_route_conversation {} {}).2 9 "w9" "w9" "" w9_s6 w9_s7 3
    (by decide) rfl (by decide)

-- =====================================================================
-- C6, C7: the non-mock configuration, where the candidate search
-- returns the empty list.
-- =====================================================================

/-- The all-real configuration: no demo mode, no mocked backend. -/
def real_settings : Settings :=
  { demo_mode := false
    use_mock_calendar := false
    use_mock_places := false
    use_mock_twilio := false
    max_conversation_turns := 10 }

/-- An oracle for the real-mode run: the LLM intent call parses a full
request; the other collaborators are never consulted before the run
aborts. -/
def real_env : Env :=
  { intent_result := .ok
      { party_size := some 2
        cuisine_type := some "Italian"
        location := some "Boston"
        date := some "2024-11-22"
        time := some "19:00" }
    prepare_response := .ok ""
    call_sid_hex := "0a1b2c3d" }

/-- The observation points of the engine run whose candidate search
comes back empty. -/
def c6_trace : List (Node × State) × RunResult :=
  runTrace real_settings real_env 25 .parse_intent
    (init_state "c6" "c6" "book an italian place")

/-- The state the same run finally returns to the caller. -/
def c6_final : State :=
  run_booking_session real_settings real_env 25 "c6" "c6"
    "book an italian place"

/-- The exception message, if the run ended in a raise. -/
def raised_msg : RunResult → Option String
  | .raised _ msg => some msg
  | _ => none

/-- The exception message, if a handler raised. -/
def except_msg : Except String State → Option String
  | .error msg => some msg
  | .ok _ => none

/-- C6 counterexample: when the candidate search returns the empty
list, the engine still walks the unconditional edge into
`select_restaurant` — the trace of the concrete empty-search run
executes it as its fourth step, on a state whose candidate list is
empty, refuting "without ever invoking SelectCandidate". -/
theorem c6_counterexample :
    (c6_trace.1.map Prod.fst) =
      [.parse_intent, .check_calendar, .search_restaurants,
        .select_restaurant, .prepare_call, .make_call] ∧
    (c6_trace.1.get? 3).map
      (fun p => (p.1, p.2.restaurant_candidates)) =
      some (.select_restaurant, []) := by
  decide

/-- C6 as amended: on an empty candidate list the engine DOES invoke
`select_restaurant`, which appends the plain string "No restaurants
found" (there is no ValidationError taxonomy) and leaves the status
`Active`; `prepare_call` then appends "No restaurant selected", and the
session only becomes `Failed` when `make_call` raises and the top-level
handler records the workflow error. -/
theorem c6_empty_search_behavior :
    (c6_trace.1.map Prod.fst) =
      [.parse_intent, .check_calendar, .search_restaurants,
        .select_restaurant, .prepare_call, .make_call] ∧
    (c6_trace.1.get? 4).map (fun p => (p.2.errors, p.2.status)) =
      some (["No restaurants found"], .active) ∧
    c6_final.status = .failed ∧
    c6_final.errors =
      ["No restaurants found", "No restaurant selected",
        "Workflow error: AttributeError: 'NoneType' object has no attribute 'name'"] := by
  decide

/-- A state without a selected restaurant, as `make_call` receives it
after an empty search. -/
def c7_state : State := init_state "c7" "c7" ""

/-- C7 (code bug): `make_call` violates the never-raise contract.  Its
logger call (orchestrator.py line 319) reads
`state.selected_restaurant.name` BEFORE the `None` guard of line 322,
so on a state without a selection the handler raises `AttributeError`
past the engine boundary instead of recording an error and returning;
the concrete empty-search run ends in exactly that raise. -/
theorem c7_make_call_raises :
    c7_state.selected_restaurant = none ∧
    except_msg (make_call real_settings real_env c7_state) =
      some "AttributeError: 'NoneType' object has no attribute 'name'" ∧
    except_msg (make_call {} {} c7_state) =
      some "AttributeError: 'NoneType' object has no attribute 'name'" ∧
    raised_msg c6_trace.2 =
      some "AttributeError: 'NoneType' object has no attribute 'name'" := by
  decide

-- =====================================================================
-- C8: the selection policies.
-- =====================================================================

theorem py_max_rating_foldl (r x : Restaurant) (xs : List Restaurant) :
    py_max_rating r (x :: xs) =
      py_max_rating (if x.rating > r.rating then x else r) xs := rfl

/-- Python's `max` returns an element of the candidates. -/
theorem py_max_rating_mem (rs : List Restaurant) :
    ∀ r : Restaurant, py_max_rating r rs ∈ r :: rs := by
  induction rs with
  | nil => intro r; simp [py_max_rating]
  | cons x xs ih =>
    intro r
    rw [py_max_rating_foldl]
    by_cases h : x.rating > r.rating
    · rw [if_pos h]
      exact List.mem_cons_of_mem r (ih x)
    · rw [if_neg h]
      rcases List.mem_cons.mp (ih r) with h1 | h1
      · rw [h1]
        exact List.mem_cons_self _ _
      · exact List.mem_cons_of_mem _ (List.mem_cons_of_mem _ h1)

/-- Python's `max` over ratings is an upper bound of the candidates. -/
theorem py_max_rating_ub (rs : List Restaurant) :
    ∀ r : Restaurant, ∀ y ∈ r :: rs,
      y.rating ≤ (py_max_rating r rs).rating := by
  induction rs with
  | nil =>
    intro r y hy
    rw [List.mem_singleton] at hy
    subst hy
    exact Nat.le_refl _
  | cons x xs ih =>
    intro r y hy
    rw [py_max_rating_foldl]
    by_cases h : x.rating > r.rating
    · rw [if_pos h]
      rcases List.mem_cons.mp hy with heq | hy'
      · rw [heq]
        exact le_trans (Nat.le_of_lt h)
          (ih x x (List.mem_cons_self _ _))
      · rcases List.mem_cons.mp hy' with heq | hy''
        · rw [heq]
          exact ih x x (List.mem_cons_self _ _)
        · exact ih x y (List.mem_cons_of_mem _ hy'')
    · rw [if_neg h]
      rcases List.mem_cons.mp hy with heq | hy'
      · rw [heq]
        exact ih r r (List.mem_cons_self _ _)
      · rcases List.mem_cons.mp hy' with heq | hy''
        · rw [heq]
          exact le_trans (Nat.le_of_not_lt h)
            (ih r r (List.mem_cons_self _ _))
        · exact ih r y (List.mem_cons_of_mem _ hy'')

/-- A state carrying the three mock candidates (scored 4.2, 4.5, 4.1
in that order). -/
def c8_state : State :=
  { init_state "c8" "c8" "" with restaurant_candidates := mock_restaurants }

/-- C8 counterexample: on the candidate list scored 4.2, 4.5, 4.1 the
engine's `select_restaurant` selects the FIRST candidate (the one
scored 4.2), not the highest-scoring one (4.5) the claim names. -/
theorem c8_counterexample :
    (c8_state.restaurant_candidates.map Restaurant.rating) =
      [42, 45, 41] ∧
    (select_restaurant c8_state).selected_restaurant =
      some olive_garden ∧
    olive_garden.rating = 42 ∧
    (select_restaurant c8_state).selected_restaurant ≠
      some restaurant2 := by
  decide

/-- C8 as amended: the engine's `select_restaurant` step auto-selects
the FIRST candidate of every non-empty list; it is the
voice-integrated variant's `voice_select_restaurant` that auto-selects
a highest-rated candidate — of the WHOLE list, not of a top-3 window —
and on the mock list that is the candidate scored 4.5. -/
theorem c8_selection_policies :
    (∀ (s : State) (r : Restaurant) (rs : List Restaurant),
      s.restaurant_candidates = r :: rs →
      (select_restaurant s).selected_restaurant = some r) ∧
    (∀ (s : State) (r : Restaurant) (rs : List Restaurant),
      s.restaurant_candidates = r :: rs →
      (voice_select_restaurant s).selected_restaurant =
        some (py_max_rating r rs) ∧
      py_max_rating r rs ∈ r :: rs ∧
      (∀ y ∈ r :: rs, y.rating ≤ (py_max_rating r rs).rating)) ∧
    (voice_select_restaurant c8_state).selected_restaurant =
      some restaurant2 := by
  refine ⟨?_, ?_, by decide⟩
  · intro s r rs h
    unfold select_restaurant
    rw [h]
  · intro s r rs h
    unfold voice_select_restaurant
    rw [h]
    exact ⟨rfl, py_max_rating_mem rs r, py_max_rating_ub rs r⟩

/-- Witness for C8 on the mock candidate list. -/
theorem c8_selection_policies_witness :
    (select_restaurant c8_state).selected_restaurant =
      some olive_garden ∧
    (voice_select_restaurant c8_state).selected_restaurant =
      some (py_max_rating olive_garden [restaurant2, restaurant3]) ∧
    py_max_rating olive_garden [restaurant2, restaurant3] =
      restaurant2 :=
  ⟨c8_selection_policies.1 c8_state olive_garden
      [restaurant2, restaurant3] rfl,
    (c8_selection_policies.2.1 c8_state olive_garden
      [restaurant2, restaurant3] rfl).1,
    by decide⟩

end HiyaDrive
